import Mathlib

/-!
# Verification of the constany staged transformation-and-cache pipeline

Shallow embedding of the two proc-macro crates `constany_stage_one` and
`constany_stage_two`.  Pure transformation logic (type classification,
wrapper generation, artifact encoding, fingerprint validation, code
emission) is embedded as executable Lean functions; filesystem reads are
passed in as explicit `Option` arguments and panics are represented by an
explicit error type.
-/

namespace Constany

/-! ## Model of `syn::Type` (the fragment inspected by `is_primitive_type`)

`path` models `syn::Type::Path` (leading-colon flag and the list of segment
identifier strings); `group` models `syn::Type::Group` (a type wrapped in
invisible grouping delimiters / parenthesization introduced by macro
expansion); `reference` models `syn::Type::Reference`; `other` stands for
every remaining `syn::Type` variant, all of which fall into the `_ => false`
arm of `is_primitive_type`. -/
inductive SynType where
  | path (leadingColon : Bool) (segments : List String)
  | array (elem : SynType)
  | group (elem : SynType)
  | slice (elem : SynType)
  | tuple (elems : List SynType)
  | reference (elem : SynType)
  | other

/-- The string match in `is_primitive_type` (stage one, lib.rs lines 133-137):
the or-pattern arm `"i8" | "i16" | ... | "str" => true`, `_ => false`. -/
def is_primitive_name (s : String) : Bool :=
  s = "i8" || s = "i16" || s = "i32" || s = "i64" || s = "i128" || s = "isize" ||
  s = "u8" || s = "u16" || s = "u32" || s = "u64" || s = "u128" || s = "usize" ||
  s = "f32" || s = "f64" || s = "bool" || s = "char" || s = "str"

mutual

/-- `is_primitive_type` (stage one, lib.rs lines 129-155).  The `path` arm
models `leading_colon.is_none() && segments.len() == 1` followed by the string
match on `segments[0].ident`; `array`, `group` and `slice` recurse on the
element type, `tuple` requires every element primitive, and everything else
(including multi-segment paths and references) is non-primitive. -/
def is_primitive_type : SynType → Bool
  | .path lc segs =>
      if lc then false
      else
        match segs with
        | [s] => is_primitive_name s
        | _ => false
  | .array e => is_primitive_type e
  | .group e => is_primitive_type e
  | .slice e => is_primitive_type e
  | .tuple es => all_primitive es
  | .reference _ => false
  | .other => false

/-- The `for` loop in the `Tuple` arm of `is_primitive_type`
(lib.rs lines 145-152): `false` as soon as one element is not primitive. -/
def all_primitive : List SynType → Bool
  | [] => true
  | e :: es => is_primitive_type e && all_primitive es

end

/-! ## Spec-side classifier (for the refinement claim C5)

These definitions are written from the spec's words (§4.1), to be compared
with `is_primitive_type`, which is written from the source. -/

/-- Modelled from the spec: "a scalar (signed/unsigned integer of any width,
floating point, boolean, character, string-slice)". -/
def spec_scalar (s : String) : Bool :=
  (s = "i8" || s = "i16" || s = "i32" || s = "i64" || s = "i128" || s = "isize") ||
  (s = "u8" || s = "u16" || s = "u32" || s = "u64" || s = "u128" || s = "usize") ||
  (s = "f32" || s = "f64") || s = "bool" || s = "char" || s = "str"

mutual

/-- Modelled from the spec: `Primitive` iff a bare single-segment path naming
a scalar, or an array/slice/tuple/parenthesized group whose element types are
all themselves primitive by this same rule, recursively; every other
descriptor is `Complex` (here: `false`). -/
def spec_primitive : SynType → Bool
  | .path false [s] => spec_scalar s
  | .array e => spec_primitive e
  | .group e => spec_primitive e
  | .slice e => spec_primitive e
  | .tuple es => spec_all_primitive es
  | _ => false

/-- Spec-side: all element types of an aggregate are primitive. -/
def spec_all_primitive : List SynType → Bool
  | [] => true
  | e :: es => spec_primitive e && spec_all_primitive es

end

/-! ## String utilities

Executable stand-ins for the Rust standard-library string operations the
macros use, written as structural recursion over `List Char` so that concrete
witnesses evaluate inside the kernel. -/

/-- `as` is an initial segment of `bs` (used by the substring search). -/
def leadsWith : List Char → List Char → Bool
  | [], _ => true
  | _ :: _, [] => false
  | a :: as, b :: bs => a = b && leadsWith as bs

/-- Substring occurrence on character lists. -/
def hasSubSeq (pat : List Char) : List Char → Bool
  | [] => leadsWith pat []
  | c :: rest => leadsWith pat (c :: rest) || hasSubSeq pat rest

/-- Models Rust `str::contains(pattern)` as used in
`attr.to_string().contains("memop")` and `...contains("force_const")`. -/
def strContains (s pat : String) : Bool :=
  hasSubSeq pat.toList s.toList

/-- Models Rust `str::matches(',').count()` (stage two, lib.rs line 62). -/
def countCommas (s : String) : Nat :=
  (s.toList.filter (fun c => c = ',')).length

/-- Models Rust `String::into_bytes` on the ASCII fragment: one byte per
character.  Every payload produced by the macros in the proved claims is
ASCII (Debug output of integers and byte arrays), so the multi-byte UTF-8
cases never arise there. -/
def strBytes (s : String) : List Nat :=
  s.toList.map Char.toNat

/-- Every character of `s` is ASCII. -/
def isAsciiString (s : String) : Bool :=
  s.toList.all (fun c => c.toNat < 128)

/-- Models Rust `String::from_utf8(..)` on the ASCII fragment: succeeds
exactly when every byte is below 128. -/
def asciiDecode (bs : List Nat) : Option String :=
  if bs.all (fun b => b < 128) then some (String.mk (bs.map Char.ofNat)) else none

/-! ## Tokenization and the source fingerprint

The macros receive their item as a `proc_macro::TokenStream` — the source
text already lexed by the Rust compiler — and both stages use
`bare_item.to_string()` (the token stream re-rendered to text) as the
function's identity.  Tokenization drops comments and collapses whitespace,
so the fingerprint is a function of the token sequence only.  `tokenize`
models the Rust lexer on the fragment needed here: identifiers/numbers,
single-character punctuation, whitespace, and `//` line comments. -/

/-- Identifier/number-literal continuation character. -/
def isIdentChar (c : Char) : Bool :=
  c.isAlphanum || c = '_'

/-- Lexer core.  `acc` is the identifier token being accumulated; the `Bool`
is true while inside a `//` line comment. -/
def tokenizeGo : List Char → String → Bool → List String
  | [], acc, _ => if acc = "" then [] else [acc]
  | c :: cs, _, true =>
      if c = '\n' then tokenizeGo cs "" false else tokenizeGo cs "" true
  | c :: cs, acc, false =>
      if isIdentChar c then tokenizeGo cs (acc.push c) false
      else
        let flushed : List String → List String :=
          fun r => if acc = "" then r else acc :: r
        if c = ' ' || c = '\n' || c = '\t' || c = '\r' then
          flushed (tokenizeGo cs "" false)
        else if c = '/' && (match cs with | '/' :: _ => true | _ => false) then
          flushed (tokenizeGo cs "" true)
        else
          flushed (c.toString :: tokenizeGo cs "" false)

/-- Models the Rust compiler lexing a source text into a token stream. -/
def tokenize (s : String) : List String :=
  tokenizeGo s.toList "" false

/-- Re-render a token stream to text (one canonical spacing), modelling
`proc_macro::TokenStream::to_string`. -/
def tsToString : List String → String
  | [] => ""
  | [t] => t
  | t :: ts => t ++ " " ++ tsToString ts

/-- The source fingerprint both stages use: `bare_item.to_string()`, i.e. the
token-stream rendering of the decorated item's source text. -/
def fingerprint (source : String) : String :=
  tsToString (tokenize source)

/-! ## The decorated item

The parts of `syn::ItemFn` the transformers read: `item.sig.ident`,
`item.vis`, and `item.sig.output` (`none` models `syn::ReturnType::Default`,
a signature with no `->` at all; `some ty` models `syn::ReturnType::Type`). -/
structure ItemFn where
  name : String
  vis : String
  output : Option SynType

/-! ## Stage one: `constany_stage_one::const_fn` -/

/-- The expression quoted into the wrapper's body to encode the computed
value (stage one, lib.rs lines 176-205): either
`format!("{:?}", f())` (Textual) or
`format!("{:?}", transmute::<T, [u8; size_of::<T>()]>(f()))` (RawBytes). -/
inductive GenMethod where
  | debugFormat
  | transmuteDebug (outputType : SynType)

/-- The wrapper function stage one appends after the original item
(lib.rs lines 209-217): it writes `code_identifier` to `hash_file_name` and
returns `(generation_method, fbyte)`. -/
structure WrapperFn where
  vis : String
  name : String
  hashFileName : String
  codeIdentifier : String
  method : GenMethod
  fbyte : Nat

/-- Result of the stage-one transform: either a compile diagnostic
(`syn::Error::to_compile_error`, not a panic) with no generated wrapper, or
the original item followed by its wrapper. -/
inductive StageOneResult where
  | compileError (msg : String)
  | ok (original : ItemFn) (wrapper : WrapperFn)

namespace StageOne

/-- `constany_stage_one::const_fn` (lib.rs lines 159-219). A function with
no return type is rejected with `syn::Error` rendered as a compile error;
otherwise the generation method and format byte are chosen: primitive return
type → Textual/tag 0; complex with `memop` in the attribute → raw transmute
bytes/tag 1; complex without `memop` → still Textual/tag 0.  The wrapper
records the hash file path `target/{name}.hash` and the code identifier
`bare_item.to_string()` it writes there when executed. -/
def const_fn (attr : String) (item : ItemFn) (source : String) : StageOneResult :=
  match item.output with
  | none => .compileError "Fn with `()` output should not become constant"
  | some ty =>
      let mf : GenMethod × Nat :=
        if is_primitive_type ty then
          (.debugFormat, 0)
        else if strContains attr "memop" then
          (.transmuteDebug ty, 1)
        else
          (.debugFormat, 0)
      .ok item
        { vis := item.vis
          name := "_" ++ item.name ++ "_wrapper_fn"
          hashFileName := "target/" ++ item.name ++ ".hash"
          codeIdentifier := fingerprint source
          method := mf.1
          fbyte := mf.2 }

/-- `constany_stage_one::main_fn` (lib.rs lines 225-258): each non-comma
attribute token `"f"` is stripped of its first and last character (the
quotes) and yields the pair (wrapper function name, result file path). -/
def main_fn (attrTokens : List String) : List (String × String) :=
  (attrTokens.filter (fun i => i ≠ ",")).map (fun i =>
    let inner := String.mk (i.toList.drop 1).dropLast
    ("_" ++ inner ++ "_wrapper_fn", "target/" ++ inner ++ ".result"))

end StageOne

/-! ## Compute-pass runtime semantics

Executing the generated program runs each wrapper and writes one artifact
file per listed function.  The decorated function's runtime result is
modelled abstractly by its Debug rendering and its in-memory bytes; a
deterministic body yields the same `RuntimeValue` on every run. -/

/-- The runtime result of calling the decorated function once. -/
structure RuntimeValue where
  debugStr : String
  bytes : List Nat

/-- Rust's `Debug` rendering of a `[u8; N]` byte array: `[b0, b1, ...]`
(modelled from the Rust language semantics of `format!("{:?}", ..)`). -/
def bytesDebug (bs : List Nat) : String :=
  "[" ++ tsToString' (bs.map (fun b => toString b)) ++ "]"
where
  /-- comma-space interleaving used by the array Debug format -/
  tsToString' : List String → String
    | [] => ""
    | [t] => t
    | t :: ts => t ++ ", " ++ tsToString' ts

/-- Running a wrapper returns `(payload, format_byte)`
(the tuple built at lib.rs line 215). -/
def runWrapper (w : WrapperFn) (v : RuntimeValue) : String × Nat :=
  match w.method with
  | .debugFormat => (v.debugStr, w.fbyte)
  | .transmuteDebug _ => (bytesDebug v.bytes, w.fbyte)

/-- One iteration of the loop `main_fn` generates (lib.rs lines 241-250):
`constructed = vec![tag]` extended with the payload's bytes; these are the
bytes written to `target/{name}.result`. -/
def computeArtifact (w : WrapperFn) (v : RuntimeValue) : List Nat :=
  let pj := runWrapper w v
  pj.2 :: strBytes pj.1

/-- The whole compute pass for one decorated function: transform, then (if
the transform succeeded) run the wrapper and write the artifact bytes. -/
def computePassArtifact (attr : String) (item : ItemFn) (source : String)
    (v : RuntimeValue) : Option (List Nat) :=
  match StageOne.const_fn attr item source with
  | .compileError _ => none
  | .ok _ w => some (computeArtifact w v)

/-! ## Stage two: `constany_stage_two::const_fn` -/

/-- A panic of the stage-two transformer: either `panic!`/`unwrap` with a
message, or the bare `unimplemented!()` at lib.rs lines 32, 64 and 116. -/
inductive Panic where
  | message (msg : String)
  | unimplemented

/-- The code emitted by stage two, structurally.  The re-parse
(`syn::parse_str`) of the spliced text is not modelled; splicing the payload
text into the quoted template is represented by the payload field.
* `constFnReturn vis name ret body` renders as
  `#vis const fn #name() #ret { return #body }` — compile-time evaluable;
* `constFnNamedConst cn ty v vis name` renders as
  `const #cn : #ty = #v; #vis const fn #name() -> #ty { return #cn }`;
* `rawFnInline vis name ty n p` renders as an ordinary (non-`const`) `fn`
  whose body binds `let constant_value = #p;` and returns
  `transmute::<[u8; #n], #ty>(constant_value)`;
* `rawFnNamedConst cn n p vis name ty` renders as
  `const #cn : [u8; #n] = #p;` plus the ordinary `fn` returning
  `transmute::<[u8; #n], #ty>(#cn)`. -/
inductive Emitted where
  | constFnReturn (vis name : String) (ret : Option SynType) (body : String)
  | constFnNamedConst (constName : String) (ty : SynType) (value : String)
      (vis name : String)
  | rawFnInline (vis name : String) (ty : SynType) (byteCount : Nat)
      (payload : String)
  | rawFnNamedConst (constName : String) (byteCount : Nat) (payload : String)
      (vis name : String) (ty : SynType)

/-- Whether the emitted item's function is declared `const fn`
(compile-time evaluable) rather than a plain `fn`. -/
def Emitted.isConstFn : Emitted → Bool
  | .constFnReturn _ _ _ _ => true
  | .constFnNamedConst _ _ _ _ _ => true
  | .rawFnInline _ _ _ _ _ => false
  | .rawFnNamedConst _ _ _ _ _ _ => false

/-- The byte-array length of a RawBytes emission, if any. -/
def Emitted.byteCount? : Emitted → Option Nat
  | .rawFnInline _ _ _ n _ => some n
  | .rawFnNamedConst _ n _ _ _ _ => some n
  | _ => none

namespace StageTwo

/-- `constany_stage_two::const_fn` (lib.rs lines 11-122).
`storedHash` is the content of `target/{name}.hash` (`none` when the read
fails), `resultData` the raw bytes of `target/{name}.result` (`none` when
missing).  Control flow follows the source: the fingerprint comparison
guards everything; on a match the result file is read (`unwrap` panics if
missing), `real_data` is decoded from `data[1..]` (`data[1..]` panics on an
empty vector, `from_utf8(..).unwrap()` on invalid bytes), `const_value` is
set iff the attribute contains `force_const`, and the match on `data[0]`
has arms for 0 (Textual), 1 (RawBytes, with
`byte_count = real_data.matches(',').count() + 1`) and a catch-all
`unimplemented!()`.  A fingerprint absence or mismatch falls through to the
final `panic!`. -/
def const_fn (attr : String) (item : ItemFn) (source : String)
    (storedHash : Option String) (resultData : Option (List Nat)) :
    Except Panic Emitted :=
  match storedHash with
  | some i =>
      if i = fingerprint source then
        match resultData with
        | none => .error (.message "called `Result::unwrap()` on an `Err` value")
        | some data =>
            match data with
            | [] => .error (.message "range start index 1 out of range")
            | tag :: rest =>
                match asciiDecode rest with
                | none => .error (.message "called `Result::unwrap()` on an `Err` value")
                | some real_data =>
                    let const_value := strContains attr "force_const"
                    match tag with
                    | 0 =>
                        if const_value then
                          match item.output with
                          | none => .error .unimplemented
                          | some ty =>
                              .ok (.constFnNamedConst
                                ("CONST_VALUE_OF_FN_" ++ item.name) ty real_data
                                item.vis item.name)
                        else
                          .ok (.constFnReturn item.vis item.name item.output real_data)
                    | 1 =>
                        let byte_count := countCommas real_data + 1
                        match item.output with
                        | none => .error .unimplemented
                        | some ty =>
                            if const_value then
                              .ok (.rawFnNamedConst
                                ("CONST_VALUE_OF_FN_" ++ item.name) byte_count
                                real_data item.vis item.name ty)
                            else
                              .ok (.rawFnInline item.vis item.name ty byte_count real_data)
                    | _ => .error .unimplemented
      else
        .error (.message "Constany stage one file not found or it's obsolete. Please run stage one again.")
  | none =>
      .error (.message "Constany stage one file not found or it's obsolete. Please run stage one again.")

end StageTwo

/-- Modelled from the Rust language semantics: `std::mem::size_of` for the
concrete primitive types used in the claims (needed only to state the size
comparison of claim C2; the transformers themselves never consult it). -/
def size_of : SynType → Option Nat
  | .path false ["u8"] => some 1
  | .path false ["i8"] => some 1
  | .path false ["u16"] => some 2
  | .path false ["i16"] => some 2
  | .path false ["u32"] => some 4
  | .path false ["i32"] => some 4
  | .path false ["f32"] => some 4
  | .path false ["u64"] => some 8
  | .path false ["i64"] => some 8
  | .path false ["f64"] => some 8
  | _ => none

/-! ## Helper lemmas -/

/-- The source-side scalar-name match and the spec-side scalar list agree. -/
theorem scalar_name_eq (s : String) : is_primitive_name s = spec_scalar s := by
  simp [is_primitive_name, spec_scalar, Bool.or_assoc]

mutual

/-- The classifier written from the source coincides with the classifier
written from the spec's words, on every type descriptor. -/
theorem prim_eq_spec : (t : SynType) → is_primitive_type t = spec_primitive t
  | .path lc segs => by
      cases lc with
      | true => simp [is_primitive_type, spec_primitive]
      | false =>
          match segs with
          | [] => simp [is_primitive_type, spec_primitive]
          | [s] => simp [is_primitive_type, spec_primitive, scalar_name_eq s]
          | a :: b :: l => simp [is_primitive_type, spec_primitive]
  | .array e => by simp [is_primitive_type, spec_primitive, prim_eq_spec e]
  | .group e => by simp [is_primitive_type, spec_primitive, prim_eq_spec e]
  | .slice e => by simp [is_primitive_type, spec_primitive, prim_eq_spec e]
  | .tuple es => by simp [is_primitive_type, spec_primitive, all_prim_eq_spec es]
  | .reference e => by simp [is_primitive_type, spec_primitive]
  | .other => by simp [is_primitive_type, spec_primitive]

/-- List version of `prim_eq_spec`. -/
theorem all_prim_eq_spec : (l : List SynType) → all_primitive l = spec_all_primitive l
  | [] => rfl
  | e :: es => by
      simp [all_primitive, spec_all_primitive, prim_eq_spec e, all_prim_eq_spec es]

end

/-- ASCII strings survive the encode/decode round trip of the artifact
payload. -/
theorem asciiDecode_strBytes (s : String) (h : isAsciiString s = true) :
    asciiDecode (strBytes s) = some s := by
  unfold asciiDecode strBytes
  rw [if_pos]
  · have h1 : ∀ c : Char, (Char.ofNat ∘ Char.toNat) c = c := fun c => Char.ofNat_toNat c
    have h2 : s.toList.map (Char.ofNat ∘ Char.toNat) = s.toList := by
      calc s.toList.map (Char.ofNat ∘ Char.toNat) = s.toList.map id :=
            List.map_congr_left (fun c _ => h1 c)
        _ = s.toList := List.map_id _
    rw [List.map_map, h2]
    rfl
  · unfold isAsciiString at h
    simpa [List.all_map] using h

/-! ## Claims -/

/-- Claim C4: a decorated function whose signature declares no return value
is rejected by the stage-one transformer with a compile diagnostic (the
`compileError` constructor, distinct from a panic), and no wrapper or
constant code is generated for it. -/
theorem claim_C4 (attr : String) (item : ItemFn) (source : String)
    (h : item.output = none) :
    StageOne.const_fn attr item source =
      .compileError "Fn with `()` output should not become constant" := by
  simp [StageOne.const_fn, h]

/-- Witness for C4 at a concrete no-return function. -/
theorem claim_C4_witness :
    StageOne.const_fn "" ⟨"f", "", none⟩ "fn f ( ) { }" =
      .compileError "Fn with `()` output should not become constant" :=
  claim_C4 "" ⟨"f", "", none⟩ "fn f ( ) { }" rfl

/-- Claim C5: the type classifier returns `Primitive` exactly for bare
single-segment paths naming an integer of any width, `f32`/`f64`, `bool`,
`char` or `str`, and for arrays, slices, tuples and parenthesized groups
whose element types are all primitive by the same rule recursively; every
other descriptor (multi-segment paths, references, ...) is `Complex`.
Stated as: the source classifier coincides with the classifier transcribed
from the spec's words. -/
theorem claim_C5 : ∀ t : SynType, is_primitive_type t = spec_primitive t :=
  prim_eq_spec

/-- Claim C6: a decorated function with a `Complex`-classified return type
and no `memop` modifier still gets the Textual strategy with format tag 0
(RawBytes is never forced silently); only with the `memop` modifier does
the wrapper transmute the value to its in-memory bytes and use tag 1. -/
theorem claim_C6 (attr : String) (item : ItemFn) (ty : SynType) (source : String)
    (hout : item.output = some ty) (hcomplex : is_primitive_type ty = false) :
    (strContains attr "memop" = false →
      StageOne.const_fn attr item source =
        .ok item ⟨item.vis, "_" ++ item.name ++ "_wrapper_fn",
          "target/" ++ item.name ++ ".hash", fingerprint source,
          .debugFormat, 0⟩) ∧
    (strContains attr "memop" = true →
      StageOne.const_fn attr item source =
        .ok item ⟨item.vis, "_" ++ item.name ++ "_wrapper_fn",
          "target/" ++ item.name ++ ".hash", fingerprint source,
          .transmuteDebug ty, 1⟩) := by
  constructor <;> intro hm <;> simp [StageOne.const_fn, hout, hcomplex, hm]

/-- Witness for C6: a function returning the multi-segment path
`std::string::String` (complex) with an empty attribute stays Textual/tag 0. -/
theorem claim_C6_witness :
    StageOne.const_fn "" ⟨"f", "pub", some (.path false ["std", "string", "String"])⟩
        "fn f ( ) -> String { }" =
      .ok ⟨"f", "pub", some (.path false ["std", "string", "String"])⟩
        ⟨"pub", "_f_wrapper_fn", "target/f.hash",
          fingerprint "fn f ( ) -> String { }", .debugFormat, 0⟩ :=
  (claim_C6 "" ⟨"f", "pub", some (.path false ["std", "string", "String"])⟩
    (.path false ["std", "string", "String"]) "fn f ( ) -> String { }"
    rfl (by decide)).1 (by decide)

/-- Claim C3: on the emit pass, a stored fingerprint that is absent or not
equal to the function's current source fingerprint makes the transformer
abort with the fatal diagnostic instructing a compute-pass re-run, and a
successful splice implies the stored fingerprint equals the current one. -/
theorem claim_C3 (attr : String) (item : ItemFn) (source : String)
    (storedHash : Option String) (resultData : Option (List Nat)) :
    (storedHash ≠ some (fingerprint source) →
      StageTwo.const_fn attr item source storedHash resultData =
        .error (.message
          "Constany stage one file not found or it's obsolete. Please run stage one again.")) ∧
    (∀ e : Emitted,
      StageTwo.const_fn attr item source storedHash resultData = .ok e →
        storedHash = some (fingerprint source)) := by
  have key : storedHash ≠ some (fingerprint source) →
      StageTwo.const_fn attr item source storedHash resultData =
        .error (.message
          "Constany stage one file not found or it's obsolete. Please run stage one again.") := by
    intro hne
    match storedHash with
    | none => simp [StageTwo.const_fn]
    | some i =>
        have hi : ¬(i = fingerprint source) := fun h => hne (by rw [h])
        simp [StageTwo.const_fn, hi]
  refine ⟨key, fun e he => ?_⟩
  by_cases hs : storedHash = some (fingerprint source)
  · exact hs
  · rw [key hs] at he
    exact absurd he (by simp)

/-- Witness for C3: a missing fingerprint file aborts with the re-run
diagnostic. -/
theorem claim_C3_witness :
    StageTwo.const_fn "" ⟨"f", "", some (.path false ["i32"])⟩ "fn f ( ) -> i32 { 6 }"
        none (some (0 :: strBytes "6")) =
      .error (.message
        "Constany stage one file not found or it's obsolete. Please run stage one again.") :=
  (claim_C3 "" ⟨"f", "", some (.path false ["i32"])⟩ "fn f ( ) -> i32 { 6 }"
    none (some (0 :: strBytes "6"))).1 (by simp)

/-- Claim C10: with a matching fingerprint, an artifact whose first byte is
neither 0 nor 1 drives the stage-two transformer into the catch-all
`unimplemented!()` panic — the match over the tag byte is not total. -/
theorem claim_C10 (attr : String) (item : ItemFn) (source : String)
    (tag : Nat) (rest : List Nat) (payload : String)
    (hdec : asciiDecode rest = some payload)
    (hbyte : tag < 256) (h0 : tag ≠ 0) (h1 : tag ≠ 1) :
    StageTwo.const_fn attr item source (some (fingerprint source))
        (some (tag :: rest)) =
      .error .unimplemented := by
  obtain ⟨k, rfl⟩ : ∃ k, tag = k + 2 := ⟨tag - 2, by omega⟩
  simp [StageTwo.const_fn, hdec]

/-- Witness for C10 at tag byte 2. -/
theorem claim_C10_witness :
    StageTwo.const_fn "" ⟨"f", "", some (.path false ["i32"])⟩ "fn f ( ) -> i32 { 6 }"
        (some (fingerprint "fn f ( ) -> i32 { 6 }")) (some (2 :: strBytes "6")) =
      .error .unimplemented :=
  claim_C10 "" ⟨"f", "", some (.path false ["i32"])⟩ "fn f ( ) -> i32 { 6 }"
    2 (strBytes "6") "6" rfl (by decide) (by decide) (by decide)

/-- Counterexample to C2 as stated: a tag-1 artifact listing 3 bytes for an
`i32` return type (in-memory size 4) does not abort — stage two still emits
the reinterpreting function, with the byte-array length 3 taken from the
payload's comma count, never consulting the type's size. -/
theorem claim_C2_counterexample :
    countCommas "[1, 2, 3]" + 1 = 3 ∧
    size_of (.path false ["i32"]) = some 4 ∧
    StageTwo.const_fn "" ⟨"f", "", some (.path false ["i32"])⟩ "fn f ( ) -> i32 { }"
        (some (fingerprint "fn f ( ) -> i32 { }"))
        (some (1 :: strBytes "[1, 2, 3]")) =
      .ok (.rawFnInline "" "f" (.path false ["i32"]) 3 "[1, 2, 3]") :=
  ⟨rfl, rfl, rfl⟩

/-- Claim C2 as amended: the emit pass performs no length check on a tag-1
artifact; for any decodable payload it emits the reinterpretation
unconditionally, with the byte-array length equal to the payload's comma
count plus one, regardless of the return type's in-memory size. -/
theorem claim_C2_amended (attr vis name : String) (ty : SynType) (source : String)
    (rest : List Nat) (payload : String)
    (hdec : asciiDecode rest = some payload) :
    StageTwo.const_fn attr ⟨name, vis, some ty⟩ source (some (fingerprint source))
        (some (1 :: rest)) =
      .ok (if strContains attr "force_const" then
             .rawFnNamedConst ("CONST_VALUE_OF_FN_" ++ name)
               (countCommas payload + 1) payload vis name ty
           else
             .rawFnInline vis name ty (countCommas payload + 1) payload) := by
  by_cases hc : strContains attr "force_const" <;>
    simp [StageTwo.const_fn, hdec, hc]

/-- Witness for the amended C2: a 3-byte payload against an `i32`-returning
function is emitted, not rejected. -/
theorem claim_C2_amended_witness :
    StageTwo.const_fn "" ⟨"g", "", some (.path false ["i32"])⟩ "fn g ( ) -> i32 { }"
        (some (fingerprint "fn g ( ) -> i32 { }"))
        (some (1 :: strBytes "[7, 8, 9]")) =
      .ok (.rawFnInline "" "g" (.path false ["i32"]) 3 "[7, 8, 9]") := by
  have h := claim_C2_amended "" "" "g" (.path false ["i32"]) "fn g ( ) -> i32 { }"
    (strBytes "[7, 8, 9]") "[7, 8, 9]" rfl
  simpa using h

/-- Claim C8: a validated tag-1 artifact yields an ordinary function
(`fn`, not `const fn`) of the original name, visibility and return type that
reinterprets the byte array into the target type; without `force_const` the
array literal is inline in the body, with `force_const` it is hoisted into a
named constant of byte-array type which the function reinterprets. -/
theorem claim_C8 (attr vis name : String) (ty : SynType) (source : String)
    (rest : List Nat) (payload : String)
    (hdec : asciiDecode rest = some payload) :
    (strContains attr "force_const" = false →
      StageTwo.const_fn attr ⟨name, vis, some ty⟩ source (some (fingerprint source))
          (some (1 :: rest)) =
        .ok (.rawFnInline vis name ty (countCommas payload + 1) payload) ∧
      Emitted.isConstFn
        (.rawFnInline vis name ty (countCommas payload + 1) payload) = false) ∧
    (strContains attr "force_const" = true →
      StageTwo.const_fn attr ⟨name, vis, some ty⟩ source (some (fingerprint source))
          (some (1 :: rest)) =
        .ok (.rawFnNamedConst ("CONST_VALUE_OF_FN_" ++ name)
          (countCommas payload + 1) payload vis name ty) ∧
      Emitted.isConstFn
        (.rawFnNamedConst ("CONST_VALUE_OF_FN_" ++ name)
          (countCommas payload + 1) payload vis name ty) = false) := by
  constructor <;> intro hc <;>
    exact ⟨by simp [StageTwo.const_fn, hdec, hc], rfl⟩

/-- Witness for C8: the `force_const` (materialize-constant) branch hoists
the 8-byte array into a named constant and emits a plain `fn`. -/
theorem claim_C8_witness :
    StageTwo.const_fn "force_const" ⟨"h", "pub", some (.path false ["f64"])⟩
        "fn h ( ) -> f64 { }"
        (some (fingerprint "fn h ( ) -> f64 { }"))
        (some (1 :: strBytes "[0, 0, 0, 0, 0, 0, 240, 63]")) =
      .ok (.rawFnNamedConst "CONST_VALUE_OF_FN_h" 8
        "[0, 0, 0, 0, 0, 0, 240, 63]" "pub" "h" (.path false ["f64"])) ∧
    Emitted.isConstFn (.rawFnNamedConst "CONST_VALUE_OF_FN_h" 8
      "[0, 0, 0, 0, 0, 0, 240, 63]" "pub" "h" (.path false ["f64"])) = false :=
  (claim_C8 "force_const" "pub" "h" (.path false ["f64"]) "fn h ( ) -> f64 { }"
    (strBytes "[0, 0, 0, 0, 0, 0, 240, 63]")
    "[0, 0, 0, 0, 0, 0, 240, 63]" rfl).2 (by decide)

/-- Claim C1: for a decorated function with a primitive-classified return
type, the compute pass stores an artifact whose first byte is the tag 0
followed by the value's Debug-formatted text, and the emit pass, on
fingerprint match, generates a compile-time-evaluable `const fn` of the same
name and visibility whose body returns exactly that payload as a literal. -/
theorem claim_C1 (attr1 attr2 vis name : String) (ty : SynType) (source : String)
    (v : RuntimeValue)
    (hprim : is_primitive_type ty = true)
    (hascii : isAsciiString v.debugStr = true)
    (hfc : strContains attr2 "force_const" = false) :
    ∃ w : WrapperFn,
      StageOne.const_fn attr1 ⟨name, vis, some ty⟩ source = .ok ⟨name, vis, some ty⟩ w ∧
      w.fbyte = 0 ∧
      w.codeIdentifier = fingerprint source ∧
      computeArtifact w v = 0 :: strBytes v.debugStr ∧
      StageTwo.const_fn attr2 ⟨name, vis, some ty⟩ source (some w.codeIdentifier)
          (some (computeArtifact w v)) =
        .ok (.constFnReturn vis name (some ty) v.debugStr) ∧
      Emitted.isConstFn (.constFnReturn vis name (some ty) v.debugStr) = true := by
  refine ⟨⟨vis, "_" ++ name ++ "_wrapper_fn", "target/" ++ name ++ ".hash",
    fingerprint source, .debugFormat, 0⟩, ?_, rfl, rfl, rfl, ?_, rfl⟩
  · simp [StageOne.const_fn, hprim]
  · have hart : computeArtifact
        ⟨vis, "_" ++ name ++ "_wrapper_fn", "target/" ++ name ++ ".hash",
          fingerprint source, .debugFormat, 0⟩ v = 0 :: strBytes v.debugStr := rfl
    rw [hart]
    simp [StageTwo.const_fn, asciiDecode_strBytes v.debugStr hascii, hfc]

/-- Witness for C1: the spec's scenario — an `i32` function computing 6
(Debug text "6") round-trips to `const fn f() -> i32 { return 6 }`. -/
theorem claim_C1_witness :
    ∃ w : WrapperFn,
      StageOne.const_fn "" ⟨"f", "", some (.path false ["i32"])⟩
          "fn f ( ) -> i32 { let mut a = 1 ; let b = 5 ; for _ in 0 . . b { a += 1 ; } a }" =
        .ok ⟨"f", "", some (.path false ["i32"])⟩ w ∧
      w.fbyte = 0 ∧
      w.codeIdentifier = fingerprint
        "fn f ( ) -> i32 { let mut a = 1 ; let b = 5 ; for _ in 0 . . b { a += 1 ; } a }" ∧
      computeArtifact w ⟨"6", [6, 0, 0, 0]⟩ = 0 :: strBytes "6" ∧
      StageTwo.const_fn "" ⟨"f", "", some (.path false ["i32"])⟩
          "fn f ( ) -> i32 { let mut a = 1 ; let b = 5 ; for _ in 0 . . b { a += 1 ; } a }"
          (some w.codeIdentifier) (some (computeArtifact w ⟨"6", [6, 0, 0, 0]⟩)) =
        .ok (.constFnReturn "" "f" (some (.path false ["i32"])) "6") ∧
      Emitted.isConstFn (.constFnReturn "" "f" (some (.path false ["i32"])) "6") = true :=
  claim_C1 "" "" "" "f" (.path false ["i32"])
    "fn f ( ) -> i32 { let mut a = 1 ; let b = 5 ; for _ in 0 . . b { a += 1 ; } a }"
    ⟨"6", [6, 0, 0, 0]⟩ (by decide) (by decide) (by decide)

/-- Claim C7: the compute pass is deterministic — with an unchanged source
and a deterministic body (the two runs produce the same runtime value), the
artifact bytes written for the function are identical across the two runs. -/
theorem claim_C7 (attr : String) (item : ItemFn) (source : String)
    (v1 v2 : RuntimeValue) (hdet : v1 = v2) :
    computePassArtifact attr item source v1 = computePassArtifact attr item source v2 := by
  rw [hdet]

/-- Witness for C7 at the concrete `i32`/6 scenario. -/
theorem claim_C7_witness :
    computePassArtifact "" ⟨"f", "", some (.path false ["i32"])⟩
        "fn f ( ) -> i32 { 6 }" ⟨"6", [6, 0, 0, 0]⟩ =
      computePassArtifact "" ⟨"f", "", some (.path false ["i32"])⟩
        "fn f ( ) -> i32 { 6 }" ⟨"6", [6, 0, 0, 0]⟩ :=
  claim_C7 "" ⟨"f", "", some (.path false ["i32"])⟩ "fn f ( ) -> i32 { 6 }"
    ⟨"6", [6, 0, 0, 0]⟩ ⟨"6", [6, 0, 0, 0]⟩ rfl

set_option maxHeartbeats 1000000 in
/-- Counterexample to C9 as stated: two source texts that differ only in
whitespace and a `//` comment are distinct strings, yet their fingerprints
(token-stream renderings) are equal, and the emit pass validates the
fingerprint stored from the first text against the second and splices the
cached payload — it does not miss the cache. -/
theorem claim_C9_counterexample :
    ("fn f() -> i32 { 1 }" ≠ "fn f()  -> i32 // c\n { 1 }") ∧
    fingerprint "fn f() -> i32 { 1 }" =
      fingerprint "fn f()  -> i32 // c\n { 1 }" ∧
    StageTwo.const_fn "" ⟨"f", "", some (.path false ["i32"])⟩
        "fn f()  -> i32 // c\n { 1 }"
        (some (fingerprint "fn f() -> i32 { 1 }"))
        (some (0 :: strBytes "1")) =
      .ok (.constFnReturn "" "f" (some (.path false ["i32"])) "1") :=
  ⟨by decide, by decide, by rfl⟩

/-- Claim C9 as amended: purely cosmetic edits do not change the
fingerprint, because the fingerprint is the token-stream rendering of the
source, which drops comments and normalizes whitespace; an edit that leaves
the token sequence unchanged leaves the fingerprint unchanged, and the emit
pass behaves on the stored fingerprint exactly as it would after a fresh
compute pass (no cache miss); only token-level changes alter the
fingerprint. -/
theorem claim_C9_amended (attr : String) (item : ItemFn) (s1 s2 : String)
    (data : Option (List Nat)) (htok : tokenize s1 = tokenize s2) :
    fingerprint s1 = fingerprint s2 ∧
    StageTwo.const_fn attr item s2 (some (fingerprint s1)) data =
      StageTwo.const_fn attr item s2 (some (fingerprint s2)) data := by
  have h : fingerprint s1 = fingerprint s2 := by
    unfold fingerprint
    rw [htok]
  exact ⟨h, by rw [h]⟩

/-- Witness for the amended C9 on the concrete cosmetic edit. -/
theorem claim_C9_amended_witness :
    fingerprint "fn g() -> i32 { 2 }" =
      fingerprint "fn g()   -> i32 // note\n { 2 }" ∧
    StageTwo.const_fn "" ⟨"g", "", some (.path false ["i32"])⟩
        "fn g()   -> i32 // note\n { 2 }"
        (some (fingerprint "fn g() -> i32 { 2 }")) (some (0 :: strBytes "2")) =
      StageTwo.const_fn "" ⟨"g", "", some (.path false ["i32"])⟩
        "fn g()   -> i32 // note\n { 2 }"
        (some (fingerprint "fn g()   -> i32 // note\n { 2 }"))
        (some (0 :: strBytes "2")) :=
  claim_C9_amended "" ⟨"g", "", some (.path false ["i32"])⟩
    "fn g() -> i32 { 2 }" "fn g()   -> i32 // note\n { 2 }"
    (some (0 :: strBytes "2")) (by decide)

end Constany
